import Mathlib

/-!
Shallow embedding of the browser-window binding layer: the dispatch bridge
(core/src/application/c.rs), the eval-js callback plumbing and the oneshot
result channel (src/browser.rs), and the custom waker runtime
(src/application.rs). Raw pointers are modelled as natural-number tokens;
C strings crossing the boundary are modelled as the decoded Lean String;
a null pointer is modelled as none. A Rust panic is modelled as the error
branch of Except carrying the panic message.
-/

namespace BrowserWindow

/-- Raw pointers crossing the native boundary, modelled as opaque tokens. -/
abbrev Ptr := Nat

/-- Model of the native bw_Err record: an error code, an opaque data pointer,
and the alloc_message function pointer that lazily materializes the
human-readable message from the code and data. -/
structure BwErr where
  code : Int
  data : Ptr
  alloc_message : Int → Ptr → String

/-- Model of JsEvaluationError from src/browser.rs: carries only a message. -/
structure JsEvaluationError where
  message : String
deriving DecidableEq, Repr

/-- Model of JsEvaluationError::new: calls the alloc_message function pointer
of the native error on its code and data, and decodes the returned C string
(the CStr decode is modelled as the identity on the model string). -/
def JsEvaluationError.new (err : BwErr) : JsEvaluationError :=
  { message := err.alloc_message err.code err.data }

/-- A browser-window handle is a raw pointer. -/
abbrev BrowserHandle := Ptr

/-- The Rust type Result of String and JsEvaluationError, with Except.ok as
Ok and Except.error as Err. -/
abbrev JsResult := Except JsEvaluationError String

/-- Model of ffi_eval_js_callback_result from src/browser.rs lines 341-361:
builds the result value handed to the callback closure. When the error
pointer is null it reads the result C string and wraps it in Ok; otherwise
it builds a JsEvaluationError from the native error and wraps it in Err.
Reading the result string through a null pointer would be undefined
behavior, modelled as none; every defined outcome is some. -/
def ffi_eval_js_callback_result (bw : BrowserHandle) (result : Option String)
    (error : Option BwErr) : Option (BrowserHandle × JsResult) :=
  match error with
  | none =>
    match result with
    | some s => some (bw, Except.ok s)
    | none => none
  | some e => some (bw, Except.error (JsEvaluationError.new e))

/-- Model of Browser::navigate from src/browser.rs lines 132-140: the native
navigate call produced the given bw_Err value; navigate returns Ok of unit
when its code is zero and otherwise the boxed native error. -/
def Browser.navigate (native_err : BwErr) : Except BwErr Unit :=
  if native_err.code = 0 then Except.ok () else Except.error native_err

end BrowserWindow

namespace BrowserWindow

/-! Model of the futures-channel oneshot single-slot channel as used by
Browser::eval_js and BrowserThreaded::eval_js (src/browser.rs lines 77-87
and 208-218). The sender-side state records whether the receiver is still
alive and the slot contents; send stores the value when the receiver is
alive and returns the undelivered value as an error when the receiver was
dropped (it never panics and never stores). -/

/-- Sender-side view of the oneshot channel. -/
structure OneshotChannel (α : Type) where
  receiver_alive : Bool
  slot : Option α

/-- Model of futures-channel oneshot Sender::send: when the receiver was
dropped, the value comes back in the error branch, undelivered; the channel
state is unchanged. Otherwise the value is written into the slot. -/
def OneshotChannel.send {α : Type} (ch : OneshotChannel α) (v : α) :
    Except α (OneshotChannel α) :=
  if ch.receiver_alive then Except.ok { ch with slot := some v }
  else Except.error v

/-- Model of the closure passed to _eval_js by Browser::eval_js
(src/browser.rs lines 80-84): it sends the JavaScript result into the
oneshot channel and panics when the send fails. The error branch of the
outer Except is a panic with the given message. -/
def eval_js_send_closure (ch : OneshotChannel JsResult) (result : JsResult) :
    Except String (OneshotChannel JsResult) :=
  match ch.send result with
  | Except.ok ch2 => Except.ok ch2
  | Except.error _ => Except.error "Unable to send JavaScript result back"

/-- Model of the receive side at completion: the sender either wrote a value
into the slot before being dropped, or was dropped without writing, in which
case rx.await resolves to the Canceled error rather than hanging. -/
def oneshot_recv {α : Type} (sent : Option α) : Except String α :=
  match sent with
  | some v => Except.ok v
  | none => Except.error "Canceled"

/-- Model of the tail of Browser::eval_js (src/browser.rs line 86): the
awaited channel outcome is unwrapped; an Ok outcome is returned to the
caller and a Canceled outcome makes unwrap panic. The error branch of the
outer Except is a panic with the given message. -/
def eval_js_await (sent : Option JsResult) : Except String JsResult :=
  match oneshot_recv sent with
  | Except.ok r => Except.ok r
  | Except.error _ =>
      Except.error "called Result::unwrap on an Err value: Canceled"

end BrowserWindow

namespace BrowserWindow

/-! Model of the dispatch bridge in core/src/application/c.rs. -/

/-- Heap of live boxed DispatchData allocations: the list of live tokens and
the next fresh token. -/
structure CHeap where
  live : List Ptr
  next : Ptr
deriving DecidableEq, Repr

/-- Model of ApplicationImpl::dispatch (core/src/application/c.rs lines
19-28): the closure and context are boxed and the box is turned into a raw
token (Box::into_raw); the native dispatch either accepts the token for a
later invocation_handler call or rejects it. The function returns the
acceptance boolean, the heap after the call, and the token handed to the
native queue when accepted. On the rejection path the code does nothing
further with the raw token. -/
def ApplicationImpl.dispatch (heap : CHeap) (native_accepts : Bool) :
    Bool × CHeap × Option Ptr :=
  let t := heap.next
  let heap2 : CHeap := { live := t :: heap.live, next := heap.next + 1 }
  if native_accepts then (true, heap2, some t) else (false, heap2, none)

/-- Observable effect of one trampoline invocation on the transported box:
whether the allocation is still live, how many times the closure has run,
and how many times the box has been reclaimed. -/
structure TrampState where
  alive : Bool
  runs : Nat
  frees : Nat
deriving DecidableEq, Repr

/-- Model of invocation_handler (core/src/application/c.rs lines 70-77):
each native invocation with the token reconstructs the box from the raw
token, invokes the closure, and lets the box drop, reclaiming the memory.
Each invocation therefore runs the closure once and frees the box once. -/
def invocation_handler (s : TrampState) : TrampState :=
  { alive := false, runs := s.runs + 1, frees := s.frees + 1 }

/-- Model of ffi_ready_handler (src/application.rs lines 322-329): same
box-reclaiming trampoline shape as invocation_handler. -/
def ffi_ready_handler (s : TrampState) : TrampState :=
  { alive := false, runs := s.runs + 1, frees := s.frees + 1 }

/-- Model of the box handling of ffi_eval_js_callback (src/browser.rs lines
330-339): same box-reclaiming trampoline shape as invocation_handler. -/
def ffi_eval_js_callback_box (s : TrampState) : TrampState :=
  { alive := false, runs := s.runs + 1, frees := s.frees + 1 }

/-- The trampoline invoked by the native layer n times with the same token. -/
def invoke_n (n : Nat) (s : TrampState) : TrampState :=
  match n with
  | 0 => s
  | m + 1 => invocation_handler (invoke_n m s)

/-- A freshly transported box: live, never run, never freed. -/
def fresh_box : TrampState := { alive := true, runs := 0, frees := 0 }

end BrowserWindow

namespace BrowserWindow

/-! Model of the custom waker runtime in src/application.rs. -/

/-- Identifier of the fixed native-callable callbacks passed to
bw_Application_dispatch. -/
inductive CallbackId where
  | wakeup
  | free_browser_window
deriving DecidableEq, Repr

/-- Calls into the native layer observable in this model. -/
inductive NativeCall where
  | dispatch (app : Ptr) (cb : CallbackId) (data : Ptr)
  | browser_window_drop (w : Ptr)
deriving DecidableEq, Repr

/-- Behavior of a spawned future: one entry per poll, giving how many times
the future invokes its waker during that poll and whether the poll returns
Ready. Polls beyond the list return Pending without waking. -/
abbrev FutureBeh := List (Nat × Bool)

/-- Number of wake calls the future makes during poll number i. -/
def poll_wakes (beh : FutureBeh) (i : Nat) : Nat := (beh.getD i (0, false)).1

/-- Whether poll number i returns Ready. -/
def poll_ready (beh : FutureBeh) (i : Nat) : Bool := (beh.getD i (0, false)).2

/-- State of one spawned task: whether the WakerData heap allocation is
live, whether the future has completed, how many dispatched ffi_wakeup
callbacks are still queued, how many polls have happened, and whether a
poll has ever run on a freed allocation. -/
structure RtState where
  alive : Bool
  completed : Bool
  in_flight : Nat
  polls : Nat
  uaf : Bool
deriving DecidableEq, Repr

/-- The state of a task right after WakerData is boxed and before the first
poll. -/
def initial_task : RtState :=
  { alive := true, completed := false, in_flight := 0, polls := 0, uaf := false }

/-- Model of Runtime::poll_future (src/application.rs lines 96-111): polls
the boxed future once with a waker built over the same WakerData pointer.
Every wake the future performs during the poll dispatches one ffi_wakeup
carrying that pointer (counted in in_flight, assuming the event loop
accepts). When the poll returns Ready the WakerData box is reconstructed
from the raw pointer and dropped, freeing the allocation; when it returns
Pending nothing is freed. Running on an already freed allocation is
recorded as a use-after-free. -/
def Runtime.poll_future (beh : FutureBeh) (s : RtState) : RtState :=
  { alive := if poll_ready beh s.polls then false else s.alive,
    completed := s.completed || poll_ready beh s.polls,
    in_flight := s.in_flight + poll_wakes beh s.polls,
    polls := s.polls + 1,
    uaf := s.uaf || !s.alive }

/-- Model of ffi_wakeup (src/application.rs lines 331-336): the dispatched
callback casts the token back to the WakerData pointer and calls
Runtime::poll_future on it, polling the paired future once more. -/
def ffi_wakeup (beh : FutureBeh) (s : RtState) : RtState :=
  Runtime.poll_future beh s

/-- Delivery of one queued ffi_wakeup dispatch by the event loop: consumes
one in-flight dispatch and polls the future once more. With nothing
in flight there is nothing to deliver. -/
def deliver_wakeup (beh : FutureBeh) (s : RtState) : RtState :=
  if s.in_flight = 0 then s
  else ffi_wakeup beh { s with in_flight := s.in_flight - 1 }

/-- Model of spawn (src/application.rs lines 135-151 and 210-223): box the
future with its handle into WakerData and poll it a first time. -/
def spawn (beh : FutureBeh) : RtState :=
  Runtime.poll_future beh initial_task

/-- Model of waker_wake (src/application.rs lines 342-352) as a trace: each
call performs exactly one bw_Application_dispatch of ffi_wakeup with the
same WakerData pointer. -/
def waker_wake (app data : Ptr) : List NativeCall :=
  [NativeCall.dispatch app CallbackId.wakeup data]

/-- Model of waker_wake as a state effect: the boolean result of
bw_Application_dispatch is discarded, so the call returns normally whether
or not the event loop accepts; on acceptance one wakeup is queued and on
rejection the task state is left unchanged (the task is abandoned). The
error branch of Except would be a panic and is never produced. -/
def waker_wake_effect (native_accepts : Bool) (s : RtState) :
    Except String RtState :=
  Except.ok (if native_accepts then { s with in_flight := s.in_flight + 1 } else s)

/-- Model of waker_clone (src/application.rs lines 338-340): builds a new
RawWaker over the very same WakerData pointer and vtable; no new owner or
reference count is introduced. -/
def waker_clone (data : Ptr) : Ptr := data

/-- Model of waker_drop (src/application.rs line 358): a no-op. -/
def waker_drop (_data : Ptr) : Unit := ()

end BrowserWindow

namespace BrowserWindow

/-! Model of the threaded browser-window drop path in src/browser.rs. -/

/-- Model of ffi_free_browser_window (src/browser.rs lines 326-328): the
dispatched callback casts the token back to the window pointer and calls
bw_BrowserWindow_drop on it, on the GUI thread. -/
def ffi_free_browser_window (data : Ptr) : List NativeCall :=
  [NativeCall.browser_window_drop data]

/-- Model of Drop for BrowserThreaded (src/browser.rs lines 254-258): the
calling thread only performs one bw_Application_dispatch of
ffi_free_browser_window with the window pointer as token; the boolean
result of the dispatch is discarded. -/
def browser_threaded_drop (app w : Ptr) : List NativeCall :=
  [NativeCall.dispatch app CallbackId.free_browser_window w]

/-- Calls the event loop later executes for one dispatch attempt: the
dispatched callback runs when the native layer accepted the dispatch, and
nothing runs when it rejected it. -/
def run_dispatch (native_accepts : Bool) (cb : Ptr → List NativeCall)
    (data : Ptr) : List NativeCall :=
  if native_accepts then cb data else []

end BrowserWindow

namespace BrowserWindow

/-! Model of Runtime::start and argument-vector construction in
src/application.rs. -/

/-- Model of Runtime from src/application.rs: wraps the application handle
returned by the native start call. -/
structure Runtime where
  handle : Ptr
deriving DecidableEq, Repr

/-- Model of Runtime::args_ptr_vec (src/application.rs lines 78-94): the OS
argument list has one entry per process argument, none when the argument is
not valid Unicode. Each valid argument contributes a pointer to its string
data, modelled as the string itself; the first invalid argument makes the
expect call panic with the fixed message. The error branch of Except is
the panic. -/
def Runtime.args_ptr_vec : List (Option String) → Except String (List String)
  | [] => Except.ok []
  | none :: _ => Except.error "Invalid Unicode in console arguments!"
  | some a :: rest =>
    match Runtime.args_ptr_vec rest with
    | Except.ok v => Except.ok (a :: v)
    | Except.error e => Except.error e

/-- Model of Runtime::start (src/application.rs lines 157-167): builds the
argument pointer vector, takes its length as argc, calls the native
bw_Application_start on argc and argv, and wraps the returned handle in a
Runtime. The native start call is a parameter of the model. -/
def Runtime.start (args : List (Option String))
    (bw_Application_start : Nat → List String → Ptr) : Except String Runtime :=
  match Runtime.args_ptr_vec args with
  | Except.error e => Except.error e
  | Except.ok v => Except.ok { handle := bw_Application_start v.length v }

end BrowserWindow

namespace BrowserWindow

/-! Helper lemmas. -/

/-- Argument-vector construction succeeds on an all-valid argument list and
returns the pointers in order. -/
theorem args_ptr_vec_map_some (l : List String) :
    Runtime.args_ptr_vec (l.map some) = Except.ok l := by
  induction l with
  | nil => rfl
  | cons a rest ih => simp [Runtime.args_ptr_vec, ih]

/-- Argument-vector construction panics with the fixed message as soon as
some argument is not valid Unicode. -/
theorem args_ptr_vec_invalid (args : List (Option String)) (h : none ∈ args) :
    Runtime.args_ptr_vec args
      = Except.error "Invalid Unicode in console arguments!" := by
  induction args with
  | nil => cases h
  | cons a rest ih =>
    cases a with
    | none => rfl
    | some s =>
      have hr : none ∈ rest := by
        rcases List.mem_cons.mp h with h1 | h2
        · exact absurd h1 (by simp)
        · exact h2
      simp [Runtime.args_ptr_vec, ih hr]

end BrowserWindow

namespace BrowserWindow

/-- C1: for every completed JavaScript evaluation callback exactly one of
success or failure is produced: with a null native error pointer the value
handed to the callback closure is Ok of the result string and never an
error; with a non-null error pointer it is Err of a JsEvaluationError whose
message is derived from the native error through its alloc_message
function, and never an Ok. -/
theorem eval_js_callback_demux (bw : BrowserHandle) (r : Option String)
    (s : String) (e : BwErr) :
    ffi_eval_js_callback_result bw (some s) none = some (bw, Except.ok s) ∧
    ffi_eval_js_callback_result bw r (some e)
      = some (bw, Except.error (JsEvaluationError.new e)) ∧
    (∀ v : String,
      ffi_eval_js_callback_result bw r (some e) ≠ some (bw, Except.ok v)) ∧
    (∀ err : JsEvaluationError,
      ffi_eval_js_callback_result bw (some s) none
        ≠ some (bw, Except.error err)) := by
  refine ⟨rfl, rfl, ?_, ?_⟩
  · intro v hv
    simp [ffi_eval_js_callback_result] at hv
  · intro err herr
    simp [ffi_eval_js_callback_result] at herr

/-- Witness for C1 at a concrete callback delivery. -/
theorem eval_js_callback_demux_witness :
    ffi_eval_js_callback_result 5 (some "2") none = some (5, Except.ok "2") :=
  (eval_js_callback_demux 5 (some "2") "2"
    { code := 1, data := 0, alloc_message := fun _ _ => "boom" }).1

/-- C2 counterexample: with the receiver already dropped, the closure that
Browser::eval_js registers does not complete quietly; the failed send makes
it panic with the fixed message, refuting the claim that no panic occurs
when the dispatched closure completes after the future was dropped. -/
theorem eval_js_dropped_receiver_counterexample :
    eval_js_send_closure { receiver_alive := false, slot := none }
      (Except.ok "2")
      = Except.error "Unable to send JavaScript result back" := rfl

/-- C2 amended: the oneshot send itself tolerates the dropped receiver, it
returns the undelivered value in the error branch without writing to the
slot and without any double handling of the value, but the eval_js callback
closure then panics with the message about being unable to send the
JavaScript result back. -/
theorem eval_js_dropped_receiver_send_tolerates
    (ch : OneshotChannel JsResult) (r : JsResult)
    (h : ch.receiver_alive = false) :
    ch.send r = Except.error r ∧
    eval_js_send_closure ch r
      = Except.error "Unable to send JavaScript result back" := by
  constructor
  · simp [OneshotChannel.send, h]
  · simp [eval_js_send_closure, OneshotChannel.send, h]

/-- Witness for the amended C2 at a concrete channel state. -/
theorem eval_js_dropped_receiver_send_tolerates_witness :
    OneshotChannel.send { receiver_alive := false, slot := none }
      (Except.ok "2" : JsResult) = Except.error (Except.ok "2") :=
  (eval_js_dropped_receiver_send_tolerates
    { receiver_alive := false, slot := none } (Except.ok "2") rfl).1

/-- C3 counterexample: when the sender is dropped without sending, the
awaiting caller does not receive an error value; the unwrap on the Canceled
outcome makes the awaiting task panic, refuting the claim. -/
theorem eval_js_canceled_counterexample :
    eval_js_await none
      = Except.error "called Result::unwrap on an Err value: Canceled" := rfl

/-- C3 amended: when the sender is dropped without a value, the channel
itself surfaces the Canceled disconnect error to the receiver rather than
hanging, but Browser::eval_js unwraps that outcome, so the awaiting task
panics instead of receiving an explicit error value; when a value was sent
it is returned to the caller unchanged. -/
theorem oneshot_disconnect_surfaces_error (sent : Option JsResult) :
    (sent = none → oneshot_recv sent = Except.error "Canceled" ∧
      eval_js_await sent
        = Except.error "called Result::unwrap on an Err value: Canceled") ∧
    (∀ r : JsResult, sent = some r → eval_js_await sent = Except.ok r) := by
  constructor
  · rintro rfl
    exact ⟨rfl, rfl⟩
  · rintro r rfl
    rfl

/-- Witness for the amended C3 at a concrete disconnected channel. -/
theorem oneshot_disconnect_surfaces_error_witness :
    oneshot_recv (none : Option JsResult) = Except.error "Canceled" ∧
    eval_js_await none
      = Except.error "called Result::unwrap on an Err value: Canceled" :=
  (oneshot_disconnect_surfaces_error none).1 rfl

/-- C4 counterexample: dispatching from an empty heap with the native layer
rejecting the schedule returns false, hands nothing to the native queue,
and leaves the freshly boxed DispatchData token live on the heap; the boxed
closure is not disposed of, refuting the claim that its memory is
reclaimed. -/
theorem dispatch_reject_leak_counterexample :
    ApplicationImpl.dispatch { live := [], next := 0 } false
      = (false, { live := [0], next := 1 }, none) ∧
    0 ∈ (ApplicationImpl.dispatch { live := [], next := 0 } false).2.1.live := by
  decide

/-- C4 amended: when the native layer rejects the schedule, dispatch
returns false to the caller and the boxed closure is never handed to the
native queue, hence never invoked, but its allocation stays live on the
heap: the box is leaked, not reclaimed. -/
theorem dispatch_reject_leaks (heap : CHeap) :
    (ApplicationImpl.dispatch heap false).1 = false ∧
    (ApplicationImpl.dispatch heap false).2.2 = none ∧
    heap.next ∈ (ApplicationImpl.dispatch heap false).2.1.live := by
  refine ⟨rfl, rfl, ?_⟩
  simp [ApplicationImpl.dispatch]

/-- C5 counterexample: invoking the trampoline twice with the same token
runs the closure twice and frees the box twice, and invoking it zero times
frees it zero times, refuting the claim that the closure runs at most once
and the memory is freed exactly once regardless of the number of
invocations. -/
theorem trampoline_multi_invoke_counterexample :
    (invoke_n 2 fresh_box).runs = 2 ∧ (invoke_n 2 fresh_box).frees = 2 ∧
    (invoke_n 0 fresh_box).frees = 0 := by decide

/-- C5 amended: every single trampoline invocation reconstructs the box,
runs the closure once and frees the memory once, and the three trampolines
share this shape, so after n native invocations with the same token the
closure has run n times and the box has been freed n times; the
at-most-once-run and exactly-once-free guarantee therefore holds exactly
when the native layer delivers the token exactly once, and fails under
zero or repeated delivery. -/
theorem trampoline_exactly_once_per_invocation (n : Nat) (s : TrampState) :
    (invoke_n n fresh_box).runs = n ∧ (invoke_n n fresh_box).frees = n ∧
    invocation_handler s
      = { alive := false, runs := s.runs + 1, frees := s.frees + 1 } ∧
    ffi_ready_handler s = invocation_handler s ∧
    ffi_eval_js_callback_box s = invocation_handler s ∧
    (invoke_n 1 fresh_box).runs = 1 ∧ (invoke_n 1 fresh_box).frees = 1 := by
  refine ⟨?_, ?_, rfl, rfl, rfl, rfl, rfl⟩
  · induction n with
    | zero => rfl
    | succ m ih => simp [invoke_n, invocation_handler, ih]
  · induction n with
    | zero => rfl
    | succ m ih => simp [invoke_n, invocation_handler, ih]

/-- C6: each wake call performs exactly one dispatch attempt of the
ffi_wakeup callback carrying the same WakerData pointer; the dispatched
callback polls the paired future exactly once more; and a wake call whose
dispatch fails because the event loop has exited returns normally with the
task state unchanged, abandoning the task without a crash. -/
theorem waker_wake_single_dispatch (app data : Ptr) (beh : FutureBeh)
    (s : RtState) :
    waker_wake app data = [NativeCall.dispatch app CallbackId.wakeup data] ∧
    (waker_wake app data).length = 1 ∧
    ffi_wakeup beh s = Runtime.poll_future beh s ∧
    (ffi_wakeup beh s).polls = s.polls + 1 ∧
    waker_wake_effect false s = Except.ok s ∧
    waker_wake_effect true s
      = Except.ok { s with in_flight := s.in_flight + 1 } := by
  refine ⟨rfl, rfl, rfl, rfl, rfl, rfl⟩

/-- C7 counterexample: a future that invokes its waker once during its
final poll and then returns Ready leaves one dispatched wakeup in flight
after the allocation has been freed, so a subsequent wake does occur and
its delivery polls the freed allocation, refuting the claim that no
subsequent wake can or will occur after a Ready poll. -/
theorem poll_future_ready_wake_counterexample :
    (spawn [(1, true)]).alive = false ∧
    (spawn [(1, true)]).in_flight = 1 ∧
    (deliver_wakeup [(1, true)] (spawn [(1, true)])).uaf = true := by decide

/-- C7 amended: when a poll returns Ready the WakerData allocation is freed
and poll_future itself schedules nothing further, so if the future issued
no wake during that final poll and no wakeups were already in flight, no
subsequent wake occurs; a wake issued during the final poll, however, does
leave a dispatch in flight against the freed allocation. When a poll
returns Pending the allocation survives untouched, and the waker clones
handed out during the poll all reference the same WakerData pointer with
no new owner introduced. -/
theorem poll_future_ready_frees_pending_retains (beh : FutureBeh)
    (s : RtState) (halive : s.alive = true) :
    (poll_ready beh s.polls = true →
      (Runtime.poll_future beh s).alive = false ∧
      (poll_wakes beh s.polls = 0 → s.in_flight = 0 →
        (Runtime.poll_future beh s).in_flight = 0)) ∧
    (poll_ready beh s.polls = false →
      (Runtime.poll_future beh s).alive = true ∧
      (Runtime.poll_future beh s).uaf = s.uaf) ∧
    (∀ data : Ptr, waker_clone data = data) := by
  refine ⟨?_, ?_, fun _ => rfl⟩
  · intro hready
    constructor
    · simp [Runtime.poll_future, hready]
    · intro hw hflight
      simp [Runtime.poll_future, hw, hflight]
  · intro hpending
    constructor
    · simp [Runtime.poll_future, hpending, halive]
    · simp [Runtime.poll_future, halive]

/-- Witness for the amended C7 at a concrete task whose first poll is
Ready without waking. -/
theorem poll_future_ready_frees_witness :
    (Runtime.poll_future [(0, true)] initial_task).alive = false ∧
    (Runtime.poll_future [(0, true)] initial_task).in_flight = 0 :=
  ⟨((poll_future_ready_frees_pending_retains [(0, true)] initial_task rfl).1
      rfl).1,
   ((poll_future_ready_frees_pending_retains [(0, true)] initial_task rfl).1
      rfl).2 rfl rfl⟩

/-- C8: Browser::navigate returns Ok of unit exactly when the native error
code is zero, otherwise it returns Err carrying the native error value, and
for every native outcome exactly one of the two results is produced. -/
theorem navigate_result_exclusive (e : BwErr) :
    (Browser.navigate e = Except.ok () ↔ e.code = 0) ∧
    (e.code ≠ 0 → Browser.navigate e = Except.error e) ∧
    (Browser.navigate e = Except.ok () ∨ Browser.navigate e = Except.error e) ∧
    ¬(Browser.navigate e = Except.ok () ∧
      Browser.navigate e = Except.error e) := by
  by_cases h : e.code = 0 <;> simp [Browser.navigate, h]

/-- Witness for C8 at a concrete failing native outcome. -/
theorem navigate_result_exclusive_witness :
    Browser.navigate { code := 1, data := 0, alloc_message := fun _ _ => "e" }
      = Except.error { code := 1, data := 0, alloc_message := fun _ _ => "e" } :=
  (navigate_result_exclusive
    { code := 1, data := 0, alloc_message := fun _ _ => "e" }).2.1 (by decide)

/-- C9: when some OS argument is not valid Unicode, Runtime::start panics
with the fixed message instead of returning a Runtime; when every argument
is valid Unicode, the argument vector is built and start returns a Runtime
wrapping the handle produced by the native start call on argc and argv. -/
theorem runtime_start_unicode (args : List (Option String))
    (ns : Nat → List String → Ptr) :
    (none ∈ args →
      Runtime.start args ns
        = Except.error "Invalid Unicode in console arguments!") ∧
    (∀ l : List String, args = l.map some →
      Runtime.start args ns = Except.ok { handle := ns l.length l }) := by
  constructor
  · intro h
    simp [Runtime.start, args_ptr_vec_invalid args h]
  · rintro l rfl
    simp [Runtime.start, args_ptr_vec_map_some l]

/-- Witness for C9 at a concrete invalid and a concrete valid argument
list. -/
theorem runtime_start_unicode_witness :
    Runtime.start [some "app", none] (fun _ _ => 7)
      = Except.error "Invalid Unicode in console arguments!" ∧
    Runtime.start [some "app"] (fun n _ => n)
      = Except.ok { handle := ["app"].length } :=
  ⟨(runtime_start_unicode [some "app", none] (fun _ _ => 7)).1 (by simp),
   (runtime_start_unicode [some "app"] (fun n _ => n)).2 ["app"] rfl⟩

/-- C10: dropping a BrowserThreaded never performs the native window drop
on the calling thread; the calling thread only dispatches the
ffi_free_browser_window callback with the window pointer and discards the
boolean result, the dispatched callback performs the window drop on the
GUI thread when the dispatch was accepted, and when scheduling is rejected
no window drop ever runs, so the backing reference is never released. -/
theorem browser_threaded_drop_dispatches (app w : Ptr) (accepts : Bool) :
    browser_threaded_drop app w
      = [NativeCall.dispatch app CallbackId.free_browser_window w] ∧
    NativeCall.browser_window_drop w ∉ browser_threaded_drop app w ∧
    ffi_free_browser_window w = [NativeCall.browser_window_drop w] ∧
    (accepts = false → run_dispatch accepts ffi_free_browser_window w = []) ∧
    (accepts = true →
      run_dispatch accepts ffi_free_browser_window w
        = [NativeCall.browser_window_drop w]) := by
  refine ⟨rfl, ?_, rfl, ?_, ?_⟩
  · simp [browser_threaded_drop]
  · rintro rfl
    rfl
  · rintro rfl
    rfl

/-- Witness for C10 at a concrete rejected dispatch. -/
theorem browser_threaded_drop_dispatches_witness :
    run_dispatch false ffi_free_browser_window 9 = [] :=
  (browser_threaded_drop_dispatches 4 9 false).2.2.2.1 rfl

end BrowserWindow
